import Mathlib

/-!
Shallow embedding of the `reproenv` container-specification library
(`reproenv/renderers.py`, `reproenv/state.py`, `reproenv/template.py`).

Python strings are modelled by Lean `String` (sequences of code points);
Python `str` operations used by the code (`in`, `startswith`, slicing,
`strip`, `splitlines`) are modelled on the underlying `List Char`.
Methods that can raise are modelled as `Except PyErr _`; methods that the
source never raises from are total functions on explicit state records.
-/

namespace Reproenv

/-- Exception kinds raised by the reproenv code (`reproenv/exceptions.py`,
plus the Python builtins `NotImplementedError` and `ValueError`). -/
inductive PyErr where
  | rendererError (msg : String)
  | templateError (msg : String)
  | templateKeywordArgumentError (msg : String)
  | templateNotFound (msg : String)
  | notImplementedError
  | valueError (msg : String)
  deriving DecidableEq

/-- Substring test on code-point lists: `hasInfixList pat l` holds iff `pat`
occurs contiguously inside `l`.  Models Python's `pat in l` for strings. -/
def hasInfixList (pat : List Char) : List Char → Bool
  | [] => pat.isEmpty
  | a :: as => pat.isPrefixOf (a :: as) || hasInfixList pat as

/-- Python `sub in s` for strings. -/
def pyIn (sub s : String) : Bool := hasInfixList sub.data s.data

/-- Python `s.startswith(pre)`. -/
def pyStartsWith (s pre : String) : Bool := pre.data.isPrefixOf s.data

/-- Python `s[n:]` (drop the first `n` code points). -/
def pyDrop (s : String) (n : Nat) : String := ⟨s.data.drop n⟩

/-- Python `s.strip()` on the code-point list: remove leading and trailing
whitespace. -/
def pyStrip (l : List Char) : List Char :=
  ((l.dropWhile Char.isWhitespace).reverse.dropWhile Char.isWhitespace).reverse

/-- Python `d[k]` on an association list (first binding wins, as keyword
dictionaries have unique keys). -/
def pyGet (kwds : List (String × String)) (k : String) : Option String :=
  (kwds.find? (fun p => p.1 == k)).map Prod.snd

/-! ### Install-command synthesizers (`renderers.py`: `_apt_install`, `_yum_install`)

Python's `sorted` on strings is lexicographic on code points, which is the
order of `String`'s `LinearOrder`; it is modelled by `List.insertionSort`.
The multi-line command strings are transcribed literally from the triple-quoted
format strings in the source (after their trailing-`.strip()`). -/

/-- Model of `_apt_install(pkgs, opts, sort)` from `renderers.py`. -/
def _apt_install (pkgs : List String) (opts : Option String) (sort : Bool) : String :=
  let pkgs := if sort then List.insertionSort (fun a b : String => a ≤ b) pkgs else pkgs
  let opts := opts.getD "-q --no-install-recommends"
  "apt-get update -qq\napt-get install -y " ++ opts ++ " \\\n    "
    ++ String.intercalate " \\\n    " pkgs
    ++ "\nrm -rf /var/lib/apt/lists/*"

/-- Model of `_yum_install(pkgs, opts, sort)` from `renderers.py`. -/
def _yum_install (pkgs : List String) (opts : Option String) (sort : Bool) : String :=
  let pkgs := if sort then List.insertionSort (fun a b : String => a ≤ b) pkgs else pkgs
  let opts := opts.getD "-q"
  "yum install -y " ++ opts ++ " \\\n    "
    ++ String.intercalate " \\\n    " pkgs
    ++ "\nyum clean all\nrm -rf /var/cache/yum/*"

/-! ### Template definitions and validation (`state.py`, `template.py`)

A template (recipe definition) is a mapping with a `name` and optional
`binaries` / `source` installation methods.  Each method carries
`instructions` text, argument declarations, per-package-manager dependency
lists (the key set models the `dependencies` sub-mapping, present or not),
and, for binaries methods, a `urls` version-to-URL mapping.  Mappings are
modelled as association lists with the insertion order of the source dicts. -/

/-- Model of one installation method of a template (the values relevant to
validation; `env` is omitted as no claim concerns it). -/
structure MethodDef where
  instructions : String
  dependencies : Option (List (String × List String))
  required : List String
  optional : List String
  urls : List (String × String)
  deriving DecidableEq

/-- Model of a template definition: `name` plus optional methods. -/
structure TemplateDef where
  name : String
  binaries : Option MethodDef
  source : Option MethodDef
  deriving DecidableEq

/-- Python `any(template[method]["dependencies"].values())`: some dependency
list is non-empty (absent `dependencies` key counts as no dependencies). -/
def hasDeps (m : MethodDef) : Bool :=
  match m.dependencies with
  | none => false
  | some deps => deps.any (fun kv => !kv.2.isEmpty)

/-- Python `"self.install_dependencies()" in template[method]["instructions"]`. -/
def containsMarker (instructions : String) : Bool :=
  pyIn "self.install_dependencies()" instructions

/-- Dependency-marker check of `_validate_template` for one method
(`state.py` lines 55-68). -/
def checkMethodDeps (mname : String) : Option MethodDef → Except PyErr Unit
  | none => .ok ()
  | some m =>
    if hasDeps m && !containsMarker m.instructions then
      .error (.templateError
        ("Dependencies are defined but never installed in template."
          ++ mname ++ ".instructions."))
    else .ok ()

/-- Model of `_validate_template` (`state.py`).  The preceding `jsonschema`
structural validation is outside this model (its JSON schema files are data,
not code); this is the dependency/install-marker invariant that follows it. -/
def _validate_template (t : TemplateDef) : Except PyErr Unit :=
  match checkMethodDeps "binaries" t.binaries with
  | .error e => .error e
  | .ok () => checkMethodDeps "source" t.source

/-! ### Keyword-argument validation (`template.py`: `_BaseInstallationTemplate._validate_kwds`)

`reserved_attrs` models `dir(self)` for a `_BinariesTemplate` /
`_SourceTemplate` instance at validation time: the attributes and methods
defined by the class hierarchy in `template.py`.  (Attribute names
contributed by `object` itself are all dunder names, which cannot be valid
keyword identifiers clashing in practice and are represented here by the
two dunders the classes define.) -/

/-- Names already taken on a template-instance object (`dir(self)`). -/
def reserved_attrs : List String :=
  ["template", "env", "instructions", "arguments", "required_arguments",
   "optional_arguments", "versions", "dependencies", "urls",
   "_template", "_kwds", "_validate_kwds", "_set_kwds_as_attrs",
   "__init__", "__repr__"]

/-- Python `set(self._kwds).intersection(dir(self))`. -/
def shadowedKwds (kwds : List (String × String)) : List String :=
  (kwds.map Prod.fst).filter (fun k => reserved_attrs.contains k)

/-- Python `self.required_arguments.difference(self._kwds)`. -/
def missingRequired (m : MethodDef) (kwds : List (String × String)) : List String :=
  m.required.filter (fun k => !(kwds.map Prod.fst).contains k)

/-- Python `set(self._kwds).difference(required.union(optional))`. -/
def unknownKwds (m : MethodDef) (kwds : List (String × String)) : List String :=
  (kwds.map Prod.fst).filter
    (fun k => !(m.required.contains k) && !(m.optional.contains k))

/-- Valid versions of a binaries method: `set(self.urls.keys())`. -/
def binVersions (m : MethodDef) : List String := m.urls.map Prod.fst

/-- Python `self.versions == {"ANY"}` for a binaries method: the key set of
`urls` is exactly the sentinel `{"ANY"}`. -/
def isAnySentinel (m : MethodDef) : Bool :=
  !(binVersions m).isEmpty && (binVersions m).all (fun v => v == "ANY")

/-- Model of `_validate_kwds` for a binaries method (`template.py`
lines 113-156, with `versions` as in `_BinariesTemplate.versions`).
Error messages keep the source's leading text; interpolated name lists are
elided.  The `none` branch of the version lookup is unreachable: when
`"version"` is required, the missing-required check has already ensured a
binding exists. -/
def _validate_kwds (m : MethodDef) (kwds : List (String × String)) :
    Except PyErr Unit :=
  if !(shadowedKwds kwds).isEmpty then
    .error (.templateKeywordArgumentError "Invalid keyword arguments.")
  else if !(missingRequired m kwds).isEmpty then
    .error (.templateKeywordArgumentError "Missing required arguments.")
  else if !(unknownKwds m kwds).isEmpty then
    .error (.templateKeywordArgumentError
      "Keyword argument provided is not specified in template.")
  else if m.required.contains "version" then
    match pyGet kwds "version" with
    | some v =>
      if !((binVersions m).contains v) && !(isAnySentinel m) then
        .error (.templateKeywordArgumentError "Unknown version.")
      else .ok ()
    | none => .ok ()
  else .ok ()

/-! ### Renderers (`renderers.py`)

Renderer state is the instance attributes of `DockerRenderer` /
`SingularityRenderer`.  The `__init__` validation of `pkg_manager` is not
modelled (every claim uses a valid package manager); `users` starts as
`{"root"}` on a fresh renderer.  Python sets/dicts of strings are modelled
as lists in insertion order. -/

/-- State of a `DockerRenderer`. -/
structure DockerRenderer where
  pkg_manager : String
  users : List String
  parts : List String
  deriving DecidableEq

/-- Model of `DockerRenderer.__init__` with default `users`. -/
def DockerRenderer.fresh (pkg_manager : String) : DockerRenderer :=
  { pkg_manager := pkg_manager, users := ["root"], parts := [] }

/-- Model of `DockerRenderer.user`: create the user first when it is not in
`self._users`, then switch to it. -/
def DockerRenderer.user (r : DockerRenderer) (user : String) : DockerRenderer :=
  if r.users.contains user then
    { r with parts := r.parts ++ ["USER " ++ user] }
  else
    { r with
      users := r.users ++ [user],
      parts := r.parts
        ++ ["RUN test \"$(getent passwd " ++ user
              ++ ")\" \\\n    || useradd --no-user-group --create-home --shell /bin/bash "
              ++ user,
            "USER " ++ user] }

/-- State of a `SingularityRenderer`: header (bootstrap kind and origin),
files, environment, post fragments, runscript and labels. -/
structure SingularityRenderer where
  pkg_manager : String
  users : List String
  header : Option (String × String)
  files : List String
  environment : List (String × String)
  post : List String
  runscript : String
  labels : List (String × String)
  deriving DecidableEq

/-- Model of `SingularityRenderer.__init__` with default `users`. -/
def SingularityRenderer.fresh (pkg_manager : String) : SingularityRenderer :=
  { pkg_manager := pkg_manager, users := ["root"], header := none, files := [],
    environment := [], post := [], runscript := "", labels := [] }

/-- Model of `SingularityRenderer.arg`: append `key` or `key=value` to the
`%post` fragments.  The method body never raises; the `Except` return type
carries the method's possible-exception contract. -/
def SingularityRenderer.arg (r : SingularityRenderer) (key : String)
    (value : Option String) : Except PyErr SingularityRenderer :=
  .ok { r with
          post := r.post
            ++ [match value with
                | none => key
                | some v => key ++ "=" ++ v] }

/-- Model of `SingularityRenderer.copy`: one `"src destination"` line per
source file, appended to `self._files`. -/
def SingularityRenderer.copy (r : SingularityRenderer) (source : List String)
    (destination : String) : SingularityRenderer :=
  { r with files := r.files ++ source.map (fun src => src ++ " " ++ destination) }

/-- Model of `SingularityRenderer.from_`: parse the scheme of `base_image`
into header bootstrap kind and origin. -/
def SingularityRenderer.from_ (r : SingularityRenderer) (base_image : String) :
    Except PyErr SingularityRenderer :=
  if pyIn "://" base_image = false then
    .ok { r with header := some ("docker", base_image) }
  else if pyStartsWith base_image "docker://" then
    .ok { r with header := some ("docker", pyDrop base_image 9) }
  else if pyStartsWith base_image "library://" then
    .ok { r with header := some ("library", pyDrop base_image 10) }
  else
    .error (.rendererError "Unknown singularity bootstrap agent.")

/-- Python `dict.update` with one key-value pair on an insertion-ordered
association list: overwrite in place if present, else append. -/
def dictUpdate (d : List (String × String)) (kv : String × String) :
    List (String × String) :=
  if (d.map Prod.fst).contains kv.1 then
    d.map (fun p => if p.1 == kv.1 then (p.1, kv.2) else p)
  else d ++ [kv]

/-- Model of `SingularityRenderer.label`: `self._labels.update(kwds)`. -/
def SingularityRenderer.label (r : SingularityRenderer)
    (kwds : List (String × String)) : SingularityRenderer :=
  { r with labels := kwds.foldl dictUpdate r.labels }

/-- Model of `SingularityRenderer.run`: append to `self._post`. -/
def SingularityRenderer.run (r : SingularityRenderer) (command : String) :
    SingularityRenderer :=
  { r with post := r.post ++ [command] }

/-- Model of `SingularityRenderer.user`: create the user first when it is not
in `self._users`, then `su - user`. -/
def SingularityRenderer.user (r : SingularityRenderer) (user : String) :
    SingularityRenderer :=
  if r.users.contains user then
    { r with post := r.post ++ ["su - " ++ user] }
  else
    { r with
      users := r.users ++ [user],
      post := r.post
        ++ ["test \"$(getent passwd " ++ user
              ++ ")\" \\\n|| useradd --no-user-group --create-home --shell /bin/bash "
              ++ user ++ "\n",
            "su - " ++ user] }

/-- Model of `SingularityRenderer.__str__`: assemble header and the
non-empty sections in fixed order. -/
def SingularityRenderer.render (r : SingularityRenderer) : String :=
  let s :=
    match r.header with
    | some hd => "Bootstrap: " ++ hd.1 ++ "\nFrom: " ++ hd.2
    | none => ""
  let s :=
    if r.files.isEmpty then s
    else s ++ "\n\n%files\n" ++ String.intercalate "\n" r.files
  let s :=
    if r.environment.isEmpty then s
    else r.environment.foldl
      (fun acc kv => acc ++ "\nexport " ++ kv.1 ++ "=\"" ++ kv.2 ++ "\"")
      (s ++ "\n\n%environment")
  let s :=
    if r.post.isEmpty then s
    else s ++ "\n\n%post\n" ++ String.intercalate "\n\n" r.post
  let s := if r.runscript == "" then s else s ++ "\n\n%runscript\n" ++ r.runscript
  let s :=
    if r.labels.isEmpty then s
    else r.labels.foldl (fun acc kv => acc ++ kv.1 ++ " " ++ kv.2)
      (s ++ "\n\n%labels\n")
  s

/-! ### Renderer equality (`_Renderer.__eq__`) -/

/-- Line filter of `_Renderer.__eq__`: keep a line iff its stripped form is
non-empty and does not start with `#`. -/
def keepLine (j : String) : Bool :=
  !(pyStrip j.data).isEmpty && !("#".data.isPrefixOf (pyStrip j.data))

/-- Model of the `rm_empty_lines` helper inside `_Renderer.__eq__`
(`splitlines` is splitting on `"\n"`, the only line terminator the
renderers emit). -/
def rm_empty_lines (s : String) : String :=
  String.intercalate "\n" ((s.splitOn "\n").filter keepLine)

/-- Values a renderer can be compared against: another renderer (represented
by its rendered text), a raw string, or any other Python object. -/
inductive PyVal where
  | rendererVal (text : String)
  | strVal (s : String)
  | otherVal

/-- Model of `_Renderer.__eq__`: raise `NotImplementedError` unless the other
operand is a renderer or a string; otherwise compare the texts with blank
and comment lines removed. -/
def rendererPyEq (selfText : String) (other : PyVal) : Except PyErr Bool :=
  match other with
  | .rendererVal t => .ok (rm_empty_lines selfText == rm_empty_lines t)
  | .strVal t => .ok (rm_empty_lines selfText == rm_empty_lines t)
  | .otherVal => .error .notImplementedError

/-- Modelled from the spec: a line is kept iff it is not blank and its first
non-whitespace character is not `#` (the spec's description of the lines
removed before comparing renderers). -/
def specKeep (l : String) : Bool :=
  match l.data.dropWhile Char.isWhitespace with
  | [] => false
  | c :: _ => !(c == '#')

/-- Modelled from the spec: the output text after removing every blank line
and every full-line comment. -/
def specStrip (s : String) : String :=
  String.intercalate "\n" ((s.splitOn "\n").filter specKeep)

/-- Concatenation of rendered `name value` label pairs with no separator
between consecutive pairs: the shape of the `%labels` section body built by
`SingularityRenderer.__str__`. -/
def labelsText : List (String × String) → String
  | [] => ""
  | kv :: rest => kv.1 ++ " " ++ kv.2 ++ labelsText rest

/-! ### Concrete inputs used by the claim instances below -/

/-- Binaries method whose `version` argument is optional rather than
required, with a single download URL for version `1.0`. -/
def optVersionMethod : MethodDef :=
  { instructions := "echo install", dependencies := none, required := [],
    optional := ["version"],
    urls := [("1.0", "https://example.com/pkg-1.0.tar.gz")] }

/-- Binaries method with required `version` and URLs for `1.5` and `1.6`. -/
def twoVersionMethod : MethodDef :=
  { instructions := "echo install", dependencies := none,
    required := ["version"], optional := [],
    urls := [("1.5", "https://example.com/pkg-1.5.tar.gz"),
             ("1.6", "https://example.com/pkg-1.6.tar.gz")] }

/-- Binaries method with non-empty dependencies whose instructions contain
the install-dependencies marker. -/
def markerMethod : MethodDef :=
  { instructions := "self.install_dependencies()\necho done",
    dependencies := some [("apt", ["curl", "wget"]), ("yum", ["curl"])],
    required := [], optional := [], urls := [("1.0", "u")] }

/-- Binaries method with non-empty dependencies whose instructions lack the
install-dependencies marker. -/
def noMarkerMethod : MethodDef :=
  { instructions := "echo done", dependencies := some [("apt", ["curl"])],
    required := [], optional := [], urls := [("1.0", "u")] }

/-! ### Helper lemmas -/

/-- Sorting strings is invariant under permutation of the input list. -/
theorem insertionSort_eq_of_perm {pkgs perm : List String} (h : pkgs.Perm perm) :
    List.insertionSort (fun a b : String => a ≤ b) pkgs
      = List.insertionSort (fun a b : String => a ≤ b) perm := by
  have h1 := List.perm_insertionSort (fun a b : String => a ≤ b) pkgs
  have h2 := List.perm_insertionSort (fun a b : String => a ≤ b) perm
  exact List.eq_of_perm_of_sorted (h1.trans (h.trans h2.symm))
    (List.sorted_insertionSort (fun a b : String => a ≤ b) pkgs)
    (List.sorted_insertionSort (fun a b : String => a ≤ b) perm)

/-- Correctness of the executable substring test. -/
theorem hasInfixList_iff (pat l : List Char) :
    hasInfixList pat l = true ↔ pat <:+: l := by
  induction l with
  | nil => simp [hasInfixList, List.infix_nil, List.isEmpty_iff]
  | cons a as ih =>
    simp [hasInfixList, ih, List.infix_cons_iff, List.isPrefixOf_iff_prefix]

/-- A substring of a prefix of `img` occurs in `img`. -/
theorem pyIn_of_pyStartsWith {img pre sub : String}
    (hsub : sub.data <:+: pre.data) (h : pyStartsWith img pre = true) :
    pyIn sub img = true := by
  have hp : pre.data <+: img.data := List.isPrefixOf_iff_prefix.mp h
  exact (hasInfixList_iff _ _).mpr (hsub.trans ( List.IsPrefix.isInfix hp))

/-- An image with the `library://` scheme does not start with `docker://`. -/
theorem not_docker_of_library {img : String}
    (h : pyStartsWith img "library://" = true) :
    pyStartsWith img "docker://" = false := by
  by_contra hc
  have hc' : pyStartsWith img "docker://" = true := by
    cases hcc : pyStartsWith img "docker://" with
    | true => rfl
    | false => exact absurd hcc hc
  have h1 : "library://".data <+: img.data := List.isPrefixOf_iff_prefix.mp h
  have h2 : "docker://".data <+: img.data := List.isPrefixOf_iff_prefix.mp hc'
  rcases List.prefix_or_prefix_of_prefix h2 h1 with hp | hp
  · exact absurd hp (by decide)
  · exact absurd hp (by decide)

/-- The head of a non-trivial `dropWhile` result falsifies the predicate. -/
theorem dropWhile_head_not (p : Char → Bool) :
    ∀ (l : List Char) (c : Char) (rest : List Char),
      l.dropWhile p = c :: rest → p c = false := by
  intro l
  induction l with
  | nil => intro c rest h; simp [List.dropWhile] at h
  | cons x xs ih =>
    intro c rest h
    by_cases hx : p x
    · rw [List.dropWhile_cons_of_pos hx] at h
      exact ih c rest h
    · rw [List.dropWhile_cons_of_neg hx] at h
      cases h
      simpa using hx

/-- Dropping from a list that ends in a non-matching element keeps that
element at the end. -/
theorem dropWhile_append_last (p : Char → Bool) (a : Char) (h : p a = false) :
    ∀ l : List Char, ∃ l', (l ++ [a]).dropWhile p = l' ++ [a] := by
  intro l
  induction l with
  | nil => exact ⟨[], by simp [List.dropWhile_cons, h]⟩
  | cons x xs ih =>
    by_cases hx : p x
    · obtain ⟨l', hl'⟩ := ih
      exact ⟨l', by simpa [List.dropWhile_cons, hx] using hl'⟩
    · exact ⟨x :: xs, by simp [List.dropWhile_cons, hx]⟩

/-- The line filter of `_Renderer.__eq__` agrees with the spec-level one. -/
theorem keepLine_eq_specKeep (j : String) : keepLine j = specKeep j := by
  unfold keepLine specKeep pyStrip
  cases hm : j.data.dropWhile Char.isWhitespace with
  | nil => simp [hm]
  | cons c rest =>
    have hc : Char.isWhitespace c = false := dropWhile_head_not _ _ _ _ hm
    obtain ⟨l', hl'⟩ := dropWhile_append_last Char.isWhitespace c hc rest.reverse
    simp only [List.reverse_cons, hl', List.reverse_append, List.reverse_cons,
      List.reverse_nil, List.nil_append, List.cons_append, List.isEmpty_cons,
      Bool.not_false, Bool.true_and]
    have hbeq : (('#' == c) : Bool) = (c == '#') := by
      by_cases hcc : c = '#'
      · subst hcc; rfl
      · simp [beq_iff_eq, hcc]
        exact fun hh => hcc hh.symm
    simp [List.isPrefixOf, hbeq]

/-- Success of the per-method dependency-marker check. -/
theorem checkMethodDeps_ok (mname : String) (o : Option MethodDef) :
    checkMethodDeps mname o = .ok () ↔
      ∀ m, o = some m → hasDeps m = true → containsMarker m.instructions = true := by
  cases o with
  | none => simp [checkMethodDeps]
  | some m =>
    simp only [checkMethodDeps, Option.some.injEq]
    by_cases hd : hasDeps m = true
    · by_cases hmk : containsMarker m.instructions = true
      · simp [hd, hmk]
      · simp [hd, hmk]
    · simp [hd]

/-- The dependency-marker check only raises `TemplateError`. -/
theorem checkMethodDeps_error_kind (mname : String) (o : Option MethodDef)
    (e : PyErr) (h : checkMethodDeps mname o = .error e) :
    ∃ msg, e = PyErr.templateError msg := by
  cases o with
  | none => simp [checkMethodDeps] at h
  | some m =>
    simp only [checkMethodDeps] at h
    split at h
    · exact ⟨_, (Except.error.inj h).symm⟩
    · simp at h

/-- Emptiness of the shadowed-keyword set. -/
theorem shadowedKwds_nil_iff (kwds : List (String × String)) :
    (shadowedKwds kwds).isEmpty = true ↔
      ∀ k ∈ kwds.map Prod.fst, ¬ k ∈ reserved_attrs := by
  simp [shadowedKwds, List.isEmpty_iff, List.filter_eq_nil_iff]

/-- Emptiness of the missing-required set. -/
theorem missingRequired_nil_iff (m : MethodDef) (kwds : List (String × String)) :
    (missingRequired m kwds).isEmpty = true ↔
      ∀ req ∈ m.required, req ∈ kwds.map Prod.fst := by
  simp [missingRequired, List.isEmpty_iff, List.filter_eq_nil_iff]

/-- Emptiness of the unknown-keyword set. -/
theorem unknownKwds_nil_iff (m : MethodDef) (kwds : List (String × String)) :
    (unknownKwds m kwds).isEmpty = true ↔
      ∀ k ∈ kwds.map Prod.fst, k ∈ m.required ∨ k ∈ m.optional := by
  simp [unknownKwds, List.isEmpty_iff, List.filter_eq_nil_iff]
  constructor
  · intro h k x hk
    exact or_iff_not_imp_left.mpr (h k x hk)
  · intro h k x hk hnr
    rcases h k x hk with h' | h'
    · exact absurd h' hnr
    · exact h'

/-! ### Claims -/

/-- C1: for every list of package names and every permutation of it, the apt
and yum install-command synthesizers return the same multi-line command
string, and the package names appear in it in alphabetically sorted order
(the emitted list is a sorted permutation of the input). -/
theorem apt_yum_install_perm_invariant_sorted
    (pkgs perm : List String) (opts : Option String) (h : pkgs.Perm perm) :
    _apt_install pkgs opts true = _apt_install perm opts true ∧
    _yum_install pkgs opts true = _yum_install perm opts true ∧
    ∃ l : List String, l.Perm pkgs ∧ l.Sorted (fun a b : String => a ≤ b) ∧
      _apt_install pkgs opts true = _apt_install l opts false ∧
      _yum_install pkgs opts true = _yum_install l opts false := by
  have hs := insertionSort_eq_of_perm h
  refine ⟨?_, ?_, List.insertionSort (fun a b : String => a ≤ b) pkgs,
    List.perm_insertionSort _ pkgs,
    List.sorted_insertionSort (fun a b : String => a ≤ b) pkgs, rfl, rfl⟩
  · show _apt_install (List.insertionSort (fun a b : String => a ≤ b) pkgs) opts false
      = _apt_install (List.insertionSort (fun a b : String => a ≤ b) perm) opts false
    rw [hs]
  · show _yum_install (List.insertionSort (fun a b : String => a ≤ b) pkgs) opts false
      = _yum_install (List.insertionSort (fun a b : String => a ≤ b) perm) opts false
    rw [hs]

/-- Witness for C1 at a concrete permuted pair. -/
theorem apt_yum_install_perm_invariant_sorted_witness :
    (["wget", "curl"] : List String).Perm ["curl", "wget"] ∧
    (_apt_install ["wget", "curl"] none true = _apt_install ["curl", "wget"] none true ∧
     _yum_install ["wget", "curl"] none true = _yum_install ["curl", "wget"] none true ∧
     ∃ l : List String, l.Perm ["wget", "curl"] ∧
       l.Sorted (fun a b : String => a ≤ b) ∧
       _apt_install ["wget", "curl"] none true = _apt_install l none false ∧
       _yum_install ["wget", "curl"] none true = _yum_install l none false) :=
  ⟨by decide,
   apt_yum_install_perm_invariant_sorted ["wget", "curl"] ["curl", "wget"] none
     (by decide)⟩

/-- C2: registering a recipe definition fails with a `TemplateError` exactly
when some declared installation method has a non-empty dependency list but
its instructions lack the `self.install_dependencies()` marker; with the
marker present, or with no dependencies declared, validation succeeds. -/
theorem validate_template_dependency_marker (t : TemplateDef) :
    (_validate_template t = .ok () ↔
      ((∀ m, t.binaries = some m → hasDeps m = true →
          containsMarker m.instructions = true) ∧
       (∀ m, t.source = some m → hasDeps m = true →
          containsMarker m.instructions = true))) ∧
    (∀ e, _validate_template t = .error e →
      ∃ msg, e = PyErr.templateError msg) := by
  have hb := checkMethodDeps_ok "binaries" t.binaries
  have hs := checkMethodDeps_ok "source" t.source
  constructor
  · constructor
    · intro h
      unfold _validate_template at h
      cases hcb : checkMethodDeps "binaries" t.binaries with
      | error e => rw [hcb] at h; simp at h
      | ok u =>
        cases u
        rw [hcb] at h
        simp only at h
        exact ⟨hb.mp hcb, hs.mp h⟩
    · rintro ⟨h1, h2⟩
      unfold _validate_template
      rw [hb.mpr h1]
      exact hs.mpr h2
  · intro e h
    unfold _validate_template at h
    cases hcb : checkMethodDeps "binaries" t.binaries with
    | error e2 =>
      rw [hcb] at h
      simp only [Except.error.injEq] at h
      subst h
      exact checkMethodDeps_error_kind _ _ _ hcb
    | ok u =>
      cases u
      rw [hcb] at h
      simp only at h
      exact checkMethodDeps_error_kind _ _ _ h

/-- Witness for C2: a definition with dependencies and the marker validates;
one with dependencies but no marker fails with a `TemplateError`. -/
theorem validate_template_dependency_marker_witness :
    _validate_template
      { name := "pkg", binaries := some markerMethod, source := none } = .ok () ∧
    ∃ e, _validate_template
        { name := "pkg", binaries := some noMarkerMethod, source := none } =
          .error e ∧
      ∃ msg, e = PyErr.templateError msg :=
  ⟨(validate_template_dependency_marker _).1.mpr
     ⟨fun m hm _ => by cases hm; rfl, fun m hm => by cases hm⟩,
   ⟨_, rfl, (validate_template_dependency_marker
       { name := "pkg", binaries := some noMarkerMethod, source := none }).2 _
     rfl⟩⟩

/-- C3 counterexample: with `version` an optional (not required) argument,
binding `version="2.0"` succeeds even though `"2.0"` is not a key of the
urls mapping and the valid-version set is not the sentinel, contradicting
the claim that construction fails in that situation. -/
theorem validate_kwds_optional_version_counterexample :
    pyGet [("version", "2.0")] "version" = some "2.0" ∧
    (binVersions optVersionMethod).contains "2.0" = false ∧
    isAnySentinel optVersionMethod = false ∧
    _validate_kwds optVersionMethod [("version", "2.0")] = .ok () :=
  ⟨rfl, rfl, rfl, rfl⟩

/-- C3 (amended): binding keyword values fails with
`TemplateKeywordArgumentError` exactly when a required argument is missing,
a supplied name is outside required ∪ optional, a supplied name collides
with a reserved attribute, or — when `version` is a required argument of a
binaries method — the bound version is not a key of `urls` while the key
set is not `{"ANY"}`. -/
theorem validate_kwds_ok_iff (m : MethodDef) (kwds : List (String × String)) :
    (_validate_kwds m kwds = .ok () ↔
      ((∀ k ∈ kwds.map Prod.fst, ¬ k ∈ reserved_attrs) ∧
       (∀ req ∈ m.required, req ∈ kwds.map Prod.fst) ∧
       (∀ k ∈ kwds.map Prod.fst, k ∈ m.required ∨ k ∈ m.optional) ∧
       ("version" ∈ m.required →
         ∀ v, pyGet kwds "version" = some v →
           (v ∈ binVersions m ∨ isAnySentinel m = true)))) ∧
    (∀ e, _validate_kwds m kwds = .error e →
      ∃ s, e = PyErr.templateKeywordArgumentError s) := by
  unfold _validate_kwds
  by_cases h1 : (shadowedKwds kwds).isEmpty = true
  case neg =>
    have h1' : (shadowedKwds kwds).isEmpty = false := by
      cases hx : (shadowedKwds kwds).isEmpty with
      | true => exact absurd hx h1
      | false => rfl
    simp only [h1', Bool.not_false, if_true]
    constructor
    · constructor
      · intro h; cases h
      · rintro ⟨ha, -, -, -⟩
        exact absurd ((shadowedKwds_nil_iff kwds).mpr ha) h1
    · intro e he
      exact ⟨_, (Except.error.inj he).symm⟩
  case pos =>
  simp only [h1, Bool.not_true, Bool.false_eq_true, if_false]
  by_cases h2 : (missingRequired m kwds).isEmpty = true
  case neg =>
    have h2' : (missingRequired m kwds).isEmpty = false := by
      cases hx : (missingRequired m kwds).isEmpty with
      | true => exact absurd hx h2
      | false => rfl
    simp only [h2', Bool.not_false, if_true]
    constructor
    · constructor
      · intro h; cases h
      · rintro ⟨-, hreq, -, -⟩
        exact absurd ((missingRequired_nil_iff m kwds).mpr hreq) h2
    · intro e he
      exact ⟨_, (Except.error.inj he).symm⟩
  case pos =>
  simp only [h2, Bool.not_true, Bool.false_eq_true, if_false]
  by_cases h3 : (unknownKwds m kwds).isEmpty = true
  case neg =>
    have h3' : (unknownKwds m kwds).isEmpty = false := by
      cases hx : (unknownKwds m kwds).isEmpty with
      | true => exact absurd hx h3
      | false => rfl
    simp only [h3', Bool.not_false, if_true]
    constructor
    · constructor
      · intro h; cases h
      · rintro ⟨-, -, hun, -⟩
        exact absurd ((unknownKwds_nil_iff m kwds).mpr hun) h3
    · intro e he
      exact ⟨_, (Except.error.inj he).symm⟩
  case pos =>
  simp only [h3, Bool.not_true, Bool.false_eq_true, if_false]
  have hc1 := (shadowedKwds_nil_iff kwds).mp h1
  have hc2 := (missingRequired_nil_iff m kwds).mp h2
  have hc3 := (unknownKwds_nil_iff m kwds).mp h3
  constructor
  · constructor
    · intro h
      refine ⟨hc1, hc2, hc3, fun hmem v' hv' => ?_⟩
      have h4 : m.required.contains "version" = true := by simpa using hmem
      rw [if_pos h4, hv'] at h
      have h' : (if (!((binVersions m).contains v') && !(isAnySentinel m)) = true
          then (Except.error (PyErr.templateKeywordArgumentError "Unknown version.")
            : Except PyErr Unit)
          else Except.ok ()) = Except.ok () := h
      by_contra hcon
      push_neg at hcon
      obtain ⟨hnm, hns⟩ := hcon
      have hcf : (binVersions m).contains v' = false := by simpa using hnm
      have hsf : isAnySentinel m = false := by
        cases hy : isAnySentinel m with
        | true => exact absurd hy hns
        | false => rfl
      rw [if_pos (show (!((binVersions m).contains v') && !(isAnySentinel m)) = true
        by rw [hcf, hsf]; rfl)] at h'
      cases h'
    · rintro ⟨-, -, -, hver⟩
      by_cases h4 : m.required.contains "version" = true
      · rw [if_pos h4]
        cases hget : pyGet kwds "version" with
        | none => rfl
        | some v =>
          have hmem : "version" ∈ m.required := by simpa using h4
          show (if (!((binVersions m).contains v) && !(isAnySentinel m)) = true
              then (Except.error (PyErr.templateKeywordArgumentError "Unknown version.")
                : Except PyErr Unit)
              else Except.ok ()) = Except.ok ()
          rcases hver hmem v hget with hv | hv
          · have hcf : (binVersions m).contains v = true := by simpa using hv
            rw [if_neg (by rw [hcf]; exact fun hh => by cases hh)]
          · rw [if_neg (by rw [hv]; exact fun hh => by simp at hh)]
      · rw [if_neg h4]
  · intro e he
    by_cases h4 : m.required.contains "version" = true
    · rw [if_pos h4] at he
      cases hget : pyGet kwds "version" with
      | none => rw [hget] at he; simp at he
      | some v =>
        rw [hget] at he
        have he' : (if (!((binVersions m).contains v) && !(isAnySentinel m)) = true
            then (Except.error (PyErr.templateKeywordArgumentError "Unknown version.")
              : Except PyErr Unit)
            else Except.ok ()) = Except.error e := he
        split at he'
        · exact ⟨_, (Except.error.inj he').symm⟩
        · cases he'
    · rw [if_neg h4] at he
      cases he

/-- Witness for C3 (amended): with urls keys `{"1.5","1.6"}` and required
`version`, binding `version="1.5"` succeeds and `version="2.0"` fails with
`TemplateKeywordArgumentError`. -/
theorem validate_kwds_ok_iff_witness :
    _validate_kwds twoVersionMethod [("version", "1.5")] = .ok () ∧
    _validate_kwds twoVersionMethod [("version", "2.0")] =
      .error (.templateKeywordArgumentError "Unknown version.") :=
  ⟨(validate_kwds_ok_iff twoVersionMethod [("version", "1.5")]).1.mpr
     ⟨by decide, by decide, by decide,
      fun _ v hv => by
        cases hv
        left
        decide⟩,
   rfl⟩

/-- C4 counterexample: on the Singularity renderer, `arg("FOO", "bar")` does
not fail; it succeeds and appends `FOO=bar` to the `%post` fragments,
so the accumulated output state changes. -/
theorem singularity_arg_counterexample :
    (¬ ∃ e, (SingularityRenderer.fresh "apt").arg "FOO" (some "bar") = .error e) ∧
    ∃ r', (SingularityRenderer.fresh "apt").arg "FOO" (some "bar") = .ok r' ∧
      r'.post = ["FOO=bar"] := by
  constructor
  · rintro ⟨e, h⟩
    simp [SingularityRenderer.arg] at h
  · exact ⟨_, rfl, rfl⟩

/-- C4 (amended): on the Singularity renderer, `arg(key, value)` always
succeeds, appending `key` (or `key=value`) as a `%post` fragment and leaving
every other part of the renderer state unchanged. -/
theorem singularity_arg_appends (r : SingularityRenderer) (key : String)
    (value : Option String) :
    ∃ r', r.arg key value = .ok r' ∧
      r'.post = r.post
        ++ [match value with
            | none => key
            | some v => key ++ "=" ++ v] ∧
      r'.pkg_manager = r.pkg_manager ∧ r'.users = r.users ∧
      r'.header = r.header ∧ r'.files = r.files ∧
      r'.environment = r.environment ∧ r'.runscript = r.runscript ∧
      r'.labels = r.labels :=
  ⟨_, rfl, rfl, rfl, rfl, rfl, rfl, rfl, rfl, rfl⟩

/-- C5 (amended): on the Singularity renderer, `from_` maps a scheme-less
base image to bootstrap `docker` with the value verbatim, strips a
`docker://` prefix to bootstrap `docker`, strips a `library://` prefix to
bootstrap `library`, and fails with a `RendererError` on any other
scheme. -/
theorem singularity_from_header (r : SingularityRenderer) (img : String) :
    (pyIn "://" img = false →
      r.from_ img = .ok { r with header := some ("docker", img) }) ∧
    (pyStartsWith img "docker://" = true →
      r.from_ img = .ok { r with header := some ("docker", pyDrop img 9) }) ∧
    (pyStartsWith img "library://" = true →
      r.from_ img = .ok { r with header := some ("library", pyDrop img 10) }) ∧
    (pyIn "://" img = true → pyStartsWith img "docker://" = false →
      pyStartsWith img "library://" = false →
      r.from_ img = .error (.rendererError "Unknown singularity bootstrap agent.")) := by
  refine ⟨fun h => ?_, fun h => ?_, fun h => ?_, fun h1 h2 h3 => ?_⟩
  · unfold SingularityRenderer.from_
    rw [if_pos h]
  · have hin : pyIn "://" img = true :=
      pyIn_of_pyStartsWith (by decide) h
    unfold SingularityRenderer.from_
    rw [if_neg (by rw [hin]; exact fun hh => by simp at hh), if_pos h]
  · have hin : pyIn "://" img = true :=
      pyIn_of_pyStartsWith (by decide) h
    have hnd : pyStartsWith img "docker://" = false := not_docker_of_library h
    unfold SingularityRenderer.from_
    rw [if_neg (by rw [hin]; exact fun hh => by simp at hh),
      if_neg (by rw [hnd]; exact fun hh => by simp at hh), if_pos h]
  · unfold SingularityRenderer.from_
    rw [if_neg (by rw [h1]; exact fun hh => by simp at hh),
      if_neg (by rw [h2]; exact fun hh => by simp at hh),
      if_neg (by rw [h3]; exact fun hh => by simp at hh)]

/-- Witness for C5 at each of the four scheme shapes. -/
theorem singularity_from_header_witness :
    (SingularityRenderer.fresh "apt").from_ "alpine" =
      .ok { SingularityRenderer.fresh "apt" with header := some ("docker", "alpine") } ∧
    (SingularityRenderer.fresh "apt").from_ "docker://ubuntu" =
      .ok { SingularityRenderer.fresh "apt" with
              header := some ("docker", pyDrop "docker://ubuntu" 9) } ∧
    (SingularityRenderer.fresh "apt").from_ "library://lib/img" =
      .ok { SingularityRenderer.fresh "apt" with
              header := some ("library", pyDrop "library://lib/img" 10) } ∧
    (SingularityRenderer.fresh "apt").from_ "shub://img" =
      .error (.rendererError "Unknown singularity bootstrap agent.") :=
  ⟨(singularity_from_header (SingularityRenderer.fresh "apt") "alpine").1 (by decide),
   (singularity_from_header (SingularityRenderer.fresh "apt") "docker://ubuntu").2.1
     (by decide),
   (singularity_from_header (SingularityRenderer.fresh "apt") "library://lib/img").2.2.1
     (by decide),
   (singularity_from_header (SingularityRenderer.fresh "apt") "shub://img").2.2.2
     (by decide) (by decide) (by decide)⟩

/-- C5 counterexample: on an unknown scheme the error raised is a
`RendererError`, not a `ValueError`. -/
theorem singularity_from_not_valueError :
    (SingularityRenderer.fresh "apt").from_ "shub://img" =
      .error (.rendererError "Unknown singularity bootstrap agent.") ∧
    ¬ ∃ msg, (SingularityRenderer.fresh "apt").from_ "shub://img" =
      .error (.valueError msg) := by
  constructor
  · rfl
  · rintro ⟨msg, h⟩
    rw [show (SingularityRenderer.fresh "apt").from_ "shub://img" =
        .error (.rendererError "Unknown singularity bootstrap agent.") from rfl] at h
    simp at h

/-- C6: on a fresh Singularity renderer, `from_("alpine")` then
`copy(["a.txt","b.txt"], "/opt/")` renders exactly the lines
`Bootstrap: docker`, `From: alpine`, a blank line, `%files`,
`a.txt /opt/`, `b.txt /opt/`, in that order, with no other sections. -/
theorem singularity_from_copy_scenario :
    ∃ r : SingularityRenderer,
      (SingularityRenderer.fresh "apt").from_ "alpine" = .ok r ∧
      (r.copy ["a.txt", "b.txt"] "/opt/").render =
        "Bootstrap: docker\nFrom: alpine\n\n%files\na.txt /opt/\nb.txt /opt/" :=
  ⟨_, rfl, rfl⟩

/-- C7: calling `user("nonroot")` twice on fresh renderers (whose user set
is `{"root"}`) emits one creation fragment followed by a switch fragment,
and the second call emits only a second switch fragment, in both the Docker
and the Singularity dialects. -/
theorem user_dedup_second_call :
    (((DockerRenderer.fresh "apt").user "nonroot").user "nonroot").parts =
      ["RUN test \"$(getent passwd nonroot)\" \\\n    || useradd --no-user-group --create-home --shell /bin/bash nonroot",
       "USER nonroot",
       "USER nonroot"] ∧
    (((SingularityRenderer.fresh "apt").user "nonroot").user "nonroot").post =
      ["test \"$(getent passwd nonroot)\" \\\n|| useradd --no-user-group --create-home --shell /bin/bash nonroot\n",
       "su - nonroot",
       "su - nonroot"] :=
  ⟨rfl, rfl⟩

/-- C8: two renderers, or a renderer and a raw string, compare equal exactly
when their texts agree after removing every blank line and every line whose
first non-whitespace character is `#`. -/
theorem renderer_eq_iff_stripped (a b : String) :
    (rendererPyEq a (PyVal.rendererVal b) = .ok true ↔
      specStrip a = specStrip b) ∧
    (rendererPyEq a (PyVal.strVal b) = .ok true ↔
      specStrip a = specStrip b) := by
  have hk : keepLine = specKeep := funext keepLine_eq_specKeep
  have hs : ∀ s : String, rm_empty_lines s = specStrip s := fun s => by
    unfold rm_empty_lines specStrip
    rw [hk]
  constructor <;> simp [rendererPyEq, hs, beq_iff_eq]

/-- The label fold of `SingularityRenderer.__str__` appends the pairs to its
initial string with no separator between consecutive pairs. -/
theorem labels_foldl (l : List (String × String)) :
    ∀ s : String,
      l.foldl (fun acc kv => acc ++ kv.1 ++ " " ++ kv.2) s =
        s ++ labelsText l := by
  induction l with
  | nil => intro s; simp [labelsText]
  | cons kv rest ih =>
    intro s
    rw [List.foldl_cons, ih]
    simp only [labelsText, String.append_assoc]

/-- C9: when the Singularity renderer holds two or more labels, the rendered
`%labels` section concatenates the `name value` pairs with no separator
between consecutive pairs. -/
theorem singularity_labels_no_separator (r : SingularityRenderer)
    (h : 2 ≤ r.labels.length) :
    r.render = ({ r with labels := [] } : SingularityRenderer).render
      ++ "\n\n%labels\n" ++ labelsText r.labels := by
  have hne : r.labels.isEmpty = false := by
    cases hl : r.labels with
    | nil => rw [hl] at h; simp at h
    | cons a t => simp [hl]
  unfold SingularityRenderer.render
  simp only [hne, Bool.false_eq_true, if_false, List.isEmpty_nil, if_true]
  rw [labels_foldl]

/-- Witness for C9: two labels set through `label` render as
`org meversion 1.0` under the `%labels` heading. -/
theorem singularity_labels_no_separator_witness :
    2 ≤ (((SingularityRenderer.fresh "apt").label [("org", "me")]).label
        [("version", "1.0")]).labels.length ∧
    (((SingularityRenderer.fresh "apt").label [("org", "me")]).label
        [("version", "1.0")]).render = "\n\n%labels\norg meversion 1.0" :=
  ⟨by decide,
   (singularity_labels_no_separator
       (((SingularityRenderer.fresh "apt").label [("org", "me")]).label
         [("version", "1.0")]) (by decide)).trans rfl⟩

/-- C10: comparing a renderer against an object that is neither a renderer
nor a string raises `NotImplementedError` rather than evaluating to an
unequal result. -/
theorem renderer_eq_other_raises (t : String) :
    rendererPyEq t PyVal.otherVal = .error PyErr.notImplementedError ∧
    ¬ ∃ b, rendererPyEq t PyVal.otherVal = .ok b := by
  refine ⟨rfl, ?_⟩
  rintro ⟨b, h⟩
  simp [rendererPyEq] at h

end Reproenv
